import Mathlib

/-!
Shallow embedding of `src/main.py` of the `astrbot_plugin_ip_proxy`
repository: the traffic ledger (`self.stats` and its helpers), the
upstream endpoint pool (`get_new_ip`, `is_ip_valid`, `get_valid_ip`,
`switch_ip`), the per-connection relay logic (`handle_connection`,
`_forward_and_track`) and the traffic-string parser
(`_parse_traffic_string`).

Modelling conventions:
* Python `time.time()` values are modelled as integers (`ℤ`); every call
  site of `time.time()` becomes an explicit parameter.
* Network effects (`aiohttp` requests in `get_new_ip` / `is_ip_valid`)
  are modelled as oracle parameters: the parsed candidate returned by the
  leasing API (`Option (String × ℕ)`, `none` covering the unconfigured-URL,
  HTTP-error and bad-format paths, which all leave the stats untouched)
  and the boolean outcome of a validation probe.
* Python truthiness tests on `self.current_ip` / `self.current_port` /
  `self.last_validation_time` are modelled as `Option.isSome`.
* Locked regions (`async with self.stats_lock`) are modelled as atomic
  pure state transformers.
-/

/-- The persisted statistics record `self.stats`, with the fields and
defaults installed by `_load_stats_sync`. -/
structure Stats where
  total_ips_used : ℕ
  today_date : String
  today_ips_used : ℕ
  today_requests_succeeded : ℕ
  today_requests_failed : ℕ
  total_traffic_bytes : ℕ
  today_traffic_bytes : ℕ
  daily_traffic_history : List ℕ
  total_traffic_limit_bytes : ℕ
  deriving Repr, DecidableEq

/-- The default stats produced by `_load_stats_sync` when no stats file
exists. -/
def statsDefault : Stats :=
  { total_ips_used := 0
    today_date := "1970-01-01"
    today_ips_used := 0
    today_requests_succeeded := 0
    today_requests_failed := 0
    total_traffic_bytes := 0
    today_traffic_bytes := 0
    daily_traffic_history := []
    total_traffic_limit_bytes := 0 }

/-- Model of `_check_and_reset_daily_stats` (main.py lines 95-116).  `today_str` is
the value of `date.today().isoformat()`.  If the stored date differs, the
prior-day traffic is appended to `daily_traffic_history` (popping the
oldest entry when the list exceeds 3), the `today_*` counters reset and the
date updated.  (The guard `self.stats.get("today_traffic_bytes") is not None`
always holds after `_load_stats_sync`, so the append is unconditional.) -/
def _check_and_reset_daily_stats (today_str : String) (s : Stats) : Stats :=
  if s.today_date ≠ today_str then
    let hist := s.daily_traffic_history ++ [s.today_traffic_bytes]
    let hist := if 3 < hist.length then hist.drop 1 else hist
    { s with
      today_date := today_str
      today_ips_used := 0
      today_requests_succeeded := 0
      today_requests_failed := 0
      today_traffic_bytes := 0
      daily_traffic_history := hist }
  else s

/-- The locked chunk-accounting block shared by `_forward_and_track`
(main.py lines 178-187) and the initial-chunk block of `handle_connection`
(lines 250-256): add the chunk size to both traffic counters, then report
whether a positive total limit is now reached or exceeded. -/
def addTrafficChunk (n : ℕ) (s : Stats) : Stats × Bool :=
  let s' := { s with
    total_traffic_bytes := s.total_traffic_bytes + n
    today_traffic_bytes := s.today_traffic_bytes + n }
  (s', decide (0 < s'.total_traffic_limit_bytes ∧
               s'.total_traffic_limit_bytes ≤ s'.total_traffic_bytes))

/-- Model of `_increment_request_counter` (lines 149-157). -/
def _increment_request_counter (today_str : String) (success : Bool)
    (s : Stats) : Stats :=
  let s := _check_and_reset_daily_stats today_str s
  if success then
    { s with today_requests_succeeded := s.today_requests_succeeded + 1 }
  else
    { s with today_requests_failed := s.today_requests_failed + 1 }

/-- Model of `_increment_ip_usage_counter` (lines 159-165). -/
def _increment_ip_usage_counter (today_str : String) (s : Stats) : Stats :=
  let s := _check_and_reset_daily_stats today_str s
  { s with
    total_ips_used := s.total_ips_used + 1
    today_ips_used := s.today_ips_used + 1 }

/-- A day rollover followed by `n` bytes of accounted traffic: one
"day" of activity in a rollover sequence. -/
def rollThenAdd (today_str : String) (n : ℕ) (s : Stats) : Stats :=
  (addTrafficChunk n (_check_and_reset_daily_stats today_str s)).1

/-- C4: every chunk of `n` bytes accounted by the locked traffic-adding
block increases `total_traffic_bytes` and `today_traffic_bytes` by exactly
`n`, the quota is reported as tripped iff a positive
`total_traffic_limit_bytes` is set and `total_traffic_bytes` reaches it
after the addition, and a sequence of additions accumulates to its sum
(the atomicity of the locked block: no loss or double counting). -/
theorem addTraffic_counters_and_quota (n : ℕ) (s : Stats) :
    (addTrafficChunk n s).1.total_traffic_bytes = s.total_traffic_bytes + n ∧
    (addTrafficChunk n s).1.today_traffic_bytes = s.today_traffic_bytes + n ∧
    ((addTrafficChunk n s).2 = true ↔
      0 < s.total_traffic_limit_bytes ∧
      s.total_traffic_limit_bytes ≤ s.total_traffic_bytes + n) ∧
    (∀ chunks : List ℕ,
      (chunks.foldl (fun t c => (addTrafficChunk c t).1) s).total_traffic_bytes
        = s.total_traffic_bytes + chunks.sum) := by
  refine ⟨rfl, rfl, by simp [addTrafficChunk], ?_⟩
  intro chunks
  induction chunks generalizing s with
  | nil => simp
  | cons c cs ih =>
      rw [List.foldl_cons, ih]
      simp [addTrafficChunk, Nat.add_assoc]

/-- C7: day rollover is idempotent — running `_check_and_reset_daily_stats`
twice while the wall-clock date is unchanged performs the reset logic at
most once; the second invocation leaves the stats unchanged. -/
theorem daily_rollover_idempotent (today_str : String) (s : Stats) :
    _check_and_reset_daily_stats today_str
      (_check_and_reset_daily_stats today_str s)
      = _check_and_reset_daily_stats today_str s := by
  unfold _check_and_reset_daily_stats
  by_cases h : s.today_date = today_str <;> simp [h]

/-- C6: `daily_traffic_history` never grows past length 3 under day
rollovers, and eviction is FIFO: from an empty history, four rollovers
archiving the prior-day traffic values `a`, `b`, `c`, `d` leave the
history equal to `[b, c, d]`. -/
theorem daily_history_capped_fifo (s : Stats) (t1 t2 t3 t4 : String)
    (b c d : ℕ)
    (h0 : s.daily_traffic_history = [])
    (h1 : t1 ≠ s.today_date) (h2 : t2 ≠ t1) (h3 : t3 ≠ t2) (h4 : t4 ≠ t3) :
    (_check_and_reset_daily_stats t4
      (rollThenAdd t3 d (rollThenAdd t2 c
        (rollThenAdd t1 b s)))).daily_traffic_history
      = [b, c, d] ∧
    (∀ (t : String) (s' : Stats), s'.daily_traffic_history.length ≤ 3 →
      (_check_and_reset_daily_stats t s').daily_traffic_history.length ≤ 3) := by
  constructor
  · simp [rollThenAdd, _check_and_reset_daily_stats, addTrafficChunk,
      Ne.symm h1, Ne.symm h2, Ne.symm h3, Ne.symm h4, h0]
  · intro t s' hlen
    unfold _check_and_reset_daily_stats
    by_cases h : s'.today_date = t
    · simp [h, hlen]
    · simp only [h, ne_eq, not_false_iff, if_true, List.length_append,
        List.length_cons]
      split <;> simp_all

/-- Witness for `daily_history_capped_fifo` at a concrete starting state
and concrete dates. -/
theorem daily_history_capped_fifo_witness :
    (_check_and_reset_daily_stats "2026-01-05"
      (rollThenAdd "2026-01-04" 8 (rollThenAdd "2026-01-03" 7
        (rollThenAdd "2026-01-02" 6
          { statsDefault with today_traffic_bytes := 5 })))).daily_traffic_history
      = [6, 7, 8] ∧
    (_check_and_reset_daily_stats "2026-01-06"
      { statsDefault with daily_traffic_history := [1, 2, 3] }).daily_traffic_history.length ≤ 3 := by
  have h := daily_history_capped_fifo
    { statsDefault with today_traffic_bytes := 5 }
    "2026-01-02" "2026-01-03" "2026-01-04" "2026-01-05" 6 7 8
    rfl (by decide) (by decide) (by decide) (by decide)
  exact ⟨h.1, h.2 "2026-01-06"
    { statsDefault with daily_traffic_history := [1, 2, 3] } (by decide)⟩

/-! Section: the traffic-string parser `_parse_traffic_string` (lines 70-92).

The Python code strips and upper-cases the input, applies
`re.match` with pattern `(\d+(?:\.\d+)?)\s*(B|KB|MB|GB|TB|PB)?` (anchored at the
start, trailing characters ignored) and computes `int(value * 1024**k)`
where `value = float(match.group(1))` is an IEEE-754 double.  The model
below computes the exact rational value instead: with integer digits
`ip`, fractional digits `fp` of length `k` and multiplier `m`, the
result is `(ip * 10 ^ k + fp) * m / 10 ^ k` in natural-number (floor)
division (`value` is non-negative, so the `int(...)` truncation toward
zero is floor).  This coincides with the double computation whenever the
parsed number and the product are exactly representable as doubles — in
particular on every input appearing in the theorems below — but
double-specific behaviour is outside this model: numbers with 17 or more
significant digits round, and `int(...)` raises OverflowError when the
conversion or the product overflows to infinity, so properties that
hinge on those float paths are not settled here. -/

/-- Python `\s` on the ASCII range (`str.strip` removes the same set). -/
def pyIsSpace (ch : Char) : Bool :=
  ch = ' ' ∨ ch = '\t' ∨ ch = '\n' ∨ ch = '\r' ∨
  ch = Char.ofNat 11 ∨ ch = Char.ofNat 12

/-- Python `str.strip()`: drop leading and trailing whitespace. -/
def pyStrip (l : List Char) : List Char :=
  ((l.dropWhile pyIsSpace).reverse.dropWhile pyIsSpace).reverse

/-- Python `str.upper()` on the ASCII range. -/
def pyUpper (l : List Char) : List Char :=
  l.map Char.toUpper

/-- Value of a digit string, most significant digit first. -/
def digitsToNat (l : List Char) : ℕ :=
  l.foldl (fun n ch => n * 10 + (ch.toNat - 48)) 0

/-- The regex fragment `(\d+(?:\.\d+)?)`: a non-empty digit run, then
optionally (greedily) a dot followed by a non-empty digit run.  Returns
the integer digits, the fractional digits and the unconsumed rest. -/
def matchNumber (l : List Char) : Option (List Char × List Char × List Char) :=
  let intD := l.takeWhile Char.isDigit
  let rest := l.dropWhile Char.isDigit
  if intD.isEmpty then none
  else
    match rest with
    | '.' :: r2 =>
        let fracD := r2.takeWhile Char.isDigit
        if fracD.isEmpty then some (intD, [], rest)
        else some (intD, fracD, r2.dropWhile Char.isDigit)
    | _ => some (intD, [], rest)

/-- The ordered alternation `(B|KB|MB|GB|TB|PB)?`: the first alternative
that is a prefix of the remaining input wins; `none` if no alternative
matches (the group is optional, so this is not a parse failure). -/
def matchUnit (l : List Char) : Option (List Char) :=
  if l.take 1 = ['B'] then some ['B']
  else if l.take 2 = ['K', 'B'] then some ['K', 'B']
  else if l.take 2 = ['M', 'B'] then some ['M', 'B']
  else if l.take 2 = ['G', 'B'] then some ['G', 'B']
  else if l.take 2 = ['T', 'B'] then some ['T', 'B']
  else if l.take 2 = ['P', 'B'] then some ['P', 'B']
  else none

/-- The multiplier chosen by the `if unit == ...` chain (lines 80-91);
`none` and `"B"` both take the `int(value)` branch (multiplier 1). -/
def unitMultiplier (u : Option (List Char)) : ℕ :=
  if u = some ['K', 'B'] then 1024
  else if u = some ['M', 'B'] then 1024 ^ 2
  else if u = some ['G', 'B'] then 1024 ^ 3
  else if u = some ['T', 'B'] then 1024 ^ 4
  else if u = some ['P', 'B'] then 1024 ^ 5
  else 1

/-- The core of `_parse_traffic_string` after stripping and
upper-casing. -/
def parseTrafficCore (l : List Char) : Option ℕ :=
  match matchNumber l with
  | none => none
  | some (intD, fracD, rest) =>
      let rest := rest.dropWhile pyIsSpace
      let u := matchUnit rest
      let k := fracD.length
      some ((digitsToNat intD * 10 ^ k + digitsToNat fracD)
              * unitMultiplier u / 10 ^ k)

/-- Model of `_parse_traffic_string` (lines 70-92). -/
def _parse_traffic_string (s : String) : Option ℕ :=
  parseTrafficCore (pyUpper (pyStrip s.data))

/-- C9: the documented examples of the traffic-string parser: `"5GB"`,
`"1000MB"`, `"2TB"` and the bare number `"123"` yield `5 * 1024 ^ 3`,
`1000 * 1024 ^ 2`, `2 * 1024 ^ 4` and `123` bytes, while `"abc"` and
`"-5GB"` fail (return `none`). -/
theorem parse_traffic_examples :
    _parse_traffic_string "5GB" = some (5 * 1024 ^ 3) ∧
    _parse_traffic_string "1000MB" = some (1000 * 1024 ^ 2) ∧
    _parse_traffic_string "2TB" = some (2 * 1024 ^ 4) ∧
    _parse_traffic_string "123" = some 123 ∧
    _parse_traffic_string "abc" = none ∧
    _parse_traffic_string "-5GB" = none := by
  refine ⟨?_, ?_, ?_, ?_, ?_, ?_⟩ <;> decide

/-! Section: the upstream endpoint pool (`get_new_ip`, `get_valid_ip`,
`switch_ip`, lines 353-375, 398-413, 439-474)

`get_valid_ip` holds `self.ip_lock` throughout, so it is modelled as one
pure state transformer.  The external world is passed in as oracle data:
`validateCurrent`/`revalTime` for the possible revalidation of the current
endpoint, and one `Attempt` per iteration of the acquisition loop (the
code runs up to 3 iterations, `for _ in range(3)`, returning early on
success; an `Attempt` list of length 3 models a full loop).  The field
`acquired_at` is a ghost observer recording the time at which the current
endpoint was adopted (line 467); the code itself keeps no such timestamp —
it stores only `last_validation_time` — and never reads it. -/

/-- Configuration values read at the top of `get_valid_ip` (lines
441-442); code defaults are 300 and 60 seconds. -/
structure Config where
  ip_expiration_time : ℤ
  validation_interval : ℤ
  deriving Repr, DecidableEq

/-- Pool state: `self.current_ip`, `self.current_port`,
`self.last_validation_time`, the ghost adoption time, and the shared
stats record. -/
structure PoolSt where
  current_ip : Option String
  current_port : Option ℕ
  last_validation_time : Option ℤ
  acquired_at : Option ℤ
  stats : Stats
  deriving Repr, DecidableEq

/-- The initial pool state of `__init__` (lines 35-37) with the default
stats. -/
def poolInit : PoolSt :=
  { current_ip := none
    current_port := none
    last_validation_time := none
    acquired_at := none
    stats := statsDefault }

/-- One iteration of the acquisition loop (lines 462-470):
`candidate` is the parsed result of the leasing request in `get_new_ip`
(`none` for an unconfigured URL, a transport error or a body without a
colon), `valid` the outcome of `is_ip_valid` on the candidate, and
`time` the value of `time.time()` at line 467. -/
structure Attempt where
  candidate : Option (String × ℕ)
  valid : Bool
  time : ℤ
  deriving Repr, DecidableEq

/-- Model of `get_new_ip` (lines 353-375): on a parseable `ip:port` body the
lease counters are incremented (line 366) and the candidate returned;
every other path returns `(None, None)` with the stats untouched. -/
def get_new_ip (today_str : String) (candidate : Option (String × ℕ))
    (s : Stats) : Option (String × ℕ) × Stats :=
  match candidate with
  | none => (none, s)
  | some c => (some c, _increment_ip_usage_counter today_str s)

/-- The acquisition loop `for _ in range(3)` (lines 462-470): each
iteration calls `get_new_ip`; a candidate that also passes validation is
adopted (`current_ip`, `current_port`, `last_validation_time` set, ghost
`acquired_at` set) and the loop returns; otherwise the loop sleeps and
retries with the next attempt. -/
def acquireLoop (today_str : String) (attempts : List Attempt)
    (st : PoolSt) : PoolSt :=
  match attempts with
  | [] => st
  | a :: rest =>
      let r := get_new_ip today_str a.candidate st.stats
      let st := { st with stats := r.2 }
      match r.1 with
      | some (ip, port) =>
          if a.valid then
            { st with
              current_ip := some ip
              current_port := some port
              last_validation_time := some a.time
              acquired_at := some a.time }
          else acquireLoop today_str rest st
      | none => acquireLoop today_str rest st

/-- The current-endpoint phase of `get_valid_ip` (lines 443-460): with a
current endpoint, compute `ip_age = now - last_validation_time`; a
positive `ip_expiration_time` exceeded discards ip and port (lines
445-448); an age below `validation_interval` is a cache hit (early
return, `.inl`); otherwise revalidate — success refreshes
`last_validation_time` and returns, failure clears `current_ip` only
(line 460, `current_port` is left untouched).  `.inr` means execution
falls through to the acquisition phase at line 461. -/
def gviCurrent (cfg : Config) (now : ℤ) (validateCurrent : Bool)
    (revalTime : ℤ) (st : PoolSt) (ip : String) (port : ℕ) (lvt : ℤ) :
    ((Option String × Option ℕ) × PoolSt) ⊕ PoolSt :=
  if 0 < cfg.ip_expiration_time ∧ cfg.ip_expiration_time < now - lvt then
    .inr { st with current_ip := none, current_port := none }
  else if now - lvt < cfg.validation_interval then
    .inl ((some ip, some port), st)
  else if validateCurrent then
    .inl ((some ip, some port),
          { st with last_validation_time := some revalTime })
  else
    .inr { st with current_ip := none }

def gviPhase1 (cfg : Config) (now : ℤ) (validateCurrent : Bool)
    (revalTime : ℤ) (st : PoolSt) :
    ((Option String × Option ℕ) × PoolSt) ⊕ PoolSt :=
  match st.current_ip, st.current_port, st.last_validation_time with
  | some ip, some port, some lvt =>
      gviCurrent cfg now validateCurrent revalTime st ip port lvt
  | _, _, _ => .inr st

/-- The acquisition-and-return phase of `get_valid_ip` (lines 461-474):
run the acquisition loop when `current_ip` is unset, then return
`(None, None)` if it is still unset and the current pair otherwise. -/
def gviPhase2 (today_str : String) (attempts : List Attempt)
    (st : PoolSt) : (Option String × Option ℕ) × PoolSt :=
  let st := if st.current_ip = none then acquireLoop today_str attempts st
            else st
  if st.current_ip = none then ((none, none), st)
  else ((st.current_ip, st.current_port), st)

/-- Model of `get_valid_ip` (lines 439-474), under `self.ip_lock`. -/
def get_valid_ip (cfg : Config) (now : ℤ) (today_str : String)
    (validateCurrent : Bool) (revalTime : ℤ) (attempts : List Attempt)
    (st : PoolSt) : (Option String × Option ℕ) × PoolSt :=
  match gviPhase1 cfg now validateCurrent revalTime st with
  | .inl r => r
  | .inr st' => gviPhase2 today_str attempts st'

/-- The invalidation step of the `切换IP` command `switch_ip` (lines
403-406): under `self.ip_lock`, clear `current_ip` and `current_port`
(`last_validation_time` is left untouched); the command then calls
`get_valid_ip`. -/
def switch_ip_reset (st : PoolSt) : PoolSt :=
  { st with current_ip := none, current_port := none }

/-- Rollover in `_check_and_reset_daily_stats` never touches the total lease
counter. -/
theorem check_reset_total_ips (today_str : String) (s : Stats) :
    (_check_and_reset_daily_stats today_str s).total_ips_used
      = s.total_ips_used := by
  unfold _check_and_reset_daily_stats
  split <;> rfl

/-- C2 (counterexample): a candidate returned by the leasing service that
then fails validation still increments the lease counter — starting from
the initial state, one acquisition attempt whose candidate parses but
fails validation leaves `total_ips_used = 1` (and `today_ips_used = 1`)
with no endpoint adopted, refuting "for every candidate that fails
validation, the lease counters are unchanged". -/
theorem lease_counted_for_invalid_candidate :
    (acquireLoop "1970-01-01" [⟨some ("5.6.7.8", 9999), false, 0⟩]
        poolInit).stats.total_ips_used = 1 ∧
    (acquireLoop "1970-01-01" [⟨some ("5.6.7.8", 9999), false, 0⟩]
        poolInit).stats.today_ips_used = 1 ∧
    (acquireLoop "1970-01-01" [⟨some ("5.6.7.8", 9999), false, 0⟩]
        poolInit).current_ip = none := by
  refine ⟨?_, ?_, ?_⟩ <;> decide

/-- C2 (amended): a lease is recorded in the ledger iff the leasing
service returns a parseable `ip:port` candidate — the counters are
incremented in `get_new_ip` before validation runs, so they count
candidates obtained, not candidates adopted. -/
theorem get_new_ip_lease_recorded_iff_candidate (today_str : String)
    (candidate : Option (String × ℕ)) (s : Stats) :
    (get_new_ip today_str candidate s).1 = candidate ∧
    (get_new_ip today_str candidate s).2.total_ips_used
      = s.total_ips_used + (if candidate.isSome then 1 else 0) ∧
    (get_new_ip today_str candidate s).2.today_ips_used
      = (if candidate.isSome then
          (_check_and_reset_daily_stats today_str s).today_ips_used + 1
        else s.today_ips_used) := by
  cases candidate with
  | none => simp [get_new_ip]
  | some c =>
      refine ⟨rfl, ?_, ?_⟩ <;>
        simp [get_new_ip, _increment_ip_usage_counter, check_reset_total_ips]

/-! Section: expiration behaviour of `get_valid_ip` (C1).

`ip_age` at line 444 is `time.time() - self.last_validation_time`: the
clock being compared against `ip_expiration_time` restarts at every
successful revalidation (line 455), not at adoption.  The trace below
exhibits an endpoint adopted at time 0, revalidated at time 90 and then
served from cache at time 110 although `ip_expiration_time = 100`. -/

/-- Configuration for the C1 trace: TTL 100, validation interval 60. -/
def cfgTtl : Config := { ip_expiration_time := 100, validation_interval := 60 }

/-- C1 trace, step 1: at time 0 an endpoint is leased, validated and
adopted (so its ghost `acquired_at` is 0). -/
def stAdopted : PoolSt :=
  (get_valid_ip cfgTtl 0 "2026-10-12" false 0
    [⟨some ("1.2.3.4", 8080), true, 0⟩] poolInit).2

/-- C1 trace, step 2: at time 90 the endpoint is past the validation
interval, revalidates successfully, and `last_validation_time` moves to
90 while the adoption time stays 0. -/
def stRevalidated : PoolSt :=
  (get_valid_ip cfgTtl 90 "2026-10-12" true 90 [] stAdopted).2

/-- C1 (counterexample): at time 110 the endpoint adopted at time 0 is
older than the TTL of 100, yet `get_valid_ip` still returns it (as a
cache hit, since only 20 seconds passed since the last revalidation) —
refuting "for every endpoint acquired more than TTL seconds ago,
`get_valid_ip` does not return it, regardless of any later successful
revalidations". -/
theorem stale_endpoint_returned_after_revalidation :
    stRevalidated.acquired_at = some 0 ∧
    stRevalidated.current_ip = some "1.2.3.4" ∧
    cfgTtl.ip_expiration_time < 110 - 0 ∧
    (get_valid_ip cfgTtl 110 "2026-10-12" false 0 [] stRevalidated).1
      = (some "1.2.3.4", some 8080) := by
  refine ⟨?_, ?_, ?_, ?_⟩ <;> decide

/-- C1 (amended): the expiration clock is `now - last_validation_time`,
i.e. age since adoption *or last successful revalidation*: whenever a
positive `ip_expiration_time` is exceeded by that age, the current
endpoint is discarded (both fields cleared) and a fresh acquisition is
attempted; an endpoint adopted more than TTL ago whose revalidation
succeeded in between is, however, retained (see the counterexample
trace). -/
theorem gvi_expiry_from_last_validation (cfg : Config) (now : ℤ)
    (today_str : String) (validateCurrent : Bool) (revalTime : ℤ)
    (attempts : List Attempt) (st : PoolSt) (ip : String) (port : ℕ)
    (lvt : ℤ)
    (hip : st.current_ip = some ip) (hport : st.current_port = some port)
    (hlvt : st.last_validation_time = some lvt)
    (hpos : 0 < cfg.ip_expiration_time)
    (hage : cfg.ip_expiration_time < now - lvt) :
    get_valid_ip cfg now today_str validateCurrent revalTime attempts st
      = gviPhase2 today_str attempts
          { st with current_ip := none, current_port := none } := by
  have e : get_valid_ip cfg now today_str validateCurrent revalTime
      attempts st
      = match gviCurrent cfg now validateCurrent revalTime st ip port lvt with
        | .inl r => r
        | .inr st' => gviPhase2 today_str attempts st' := by
    unfold get_valid_ip gviPhase1
    rw [hip, hport, hlvt]
  rw [e]
  unfold gviCurrent
  rw [if_pos ⟨hpos, hage⟩]

/-- Witness for `gvi_expiry_from_last_validation`: at time 201 the
endpoint last validated at time 90 is 111 > 100 seconds old, so the
call discards it and runs the acquisition phase. -/
theorem gvi_expiry_from_last_validation_witness :
    get_valid_ip cfgTtl 201 "2026-10-12" false 0 [] stRevalidated
      = gviPhase2 "2026-10-12" []
          { stRevalidated with current_ip := none, current_port := none } :=
  gvi_expiry_from_last_validation cfgTtl 201 "2026-10-12" false 0 []
    stRevalidated "1.2.3.4" 8080 90 (by decide) (by decide) (by decide)
    (by decide) (by decide)

/-! Section: wholesale replacement of the current endpoint (C5).

Line 460 (`self.current_ip = None` on revalidation failure) clears only
one of the two fields, so the endpoint is not always replaced wholesale. -/

/-- C5 trace: the adopted endpoint of `stAdopted` fails its revalidation
at time 90 and all three acquisition attempts fail. -/
def stRevalFailed : PoolSt :=
  (get_valid_ip cfgTtl 90 "2026-10-12" false 0
    [⟨none, false, 1⟩, ⟨none, false, 2⟩, ⟨none, false, 3⟩] stAdopted).2

/-- C5 (counterexample): after a failed revalidation followed by three
failed acquisition attempts, `current_ip` is `None` while `current_port`
still holds the port of the old endpoint — a reachable state in which exactly
one of the two fields refers to the old endpoint, refuting "current_ip
and current_port are either both set or both None" after `get_valid_ip`. -/
theorem reval_failure_leaves_port_set :
    stRevalFailed.current_ip = none ∧
    stRevalFailed.current_port = some 8080 ∧
    ¬((stRevalFailed.current_ip.isSome ∧ stRevalFailed.current_port.isSome) ∨
      (stRevalFailed.current_ip = none ∧ stRevalFailed.current_port = none)) := by
  refine ⟨?_, ?_, ?_⟩ <;> decide

/-- The acquisition loop preserves "`current_port` is set whenever
`current_ip` is set": adoption sets both fields together and every other
path leaves both unchanged. -/
theorem acquireLoop_ip_port (today_str : String) (attempts : List Attempt)
    (st : PoolSt)
    (h : st.current_ip.isSome → st.current_port.isSome) :
    (acquireLoop today_str attempts st).current_ip.isSome →
    (acquireLoop today_str attempts st).current_port.isSome := by
  induction attempts generalizing st with
  | nil => simpa using h
  | cons a rest ih =>
      cases hc : a.candidate with
      | none =>
          simp only [acquireLoop, get_new_ip, hc]
          exact ih _ (by simpa using h)
      | some c =>
          obtain ⟨ip, port⟩ := c
          by_cases hv : a.valid
          · simp [acquireLoop, get_new_ip, hc, hv]
          · simp only [acquireLoop, get_new_ip, hc, hv, Bool.false_eq_true,
              if_false]
            exact ih _ (by simpa using h)

/-- The acquisition-and-return phase preserves the one-sided field
invariant. -/
theorem gviPhase2_snd (today_str : String) (attempts : List Attempt)
    (st : PoolSt) :
    (gviPhase2 today_str attempts st).2
      = if st.current_ip = none then acquireLoop today_str attempts st
        else st := by
  unfold gviPhase2
  dsimp only
  split
  · split <;> rfl
  · rfl

theorem gviPhase2_ip_port (today_str : String) (attempts : List Attempt)
    (st : PoolSt)
    (h : st.current_ip.isSome → st.current_port.isSome) :
    (gviPhase2 today_str attempts st).2.current_ip.isSome →
    (gviPhase2 today_str attempts st).2.current_port.isSome := by
  rw [gviPhase2_snd]
  by_cases hc : st.current_ip = none
  · rw [if_pos hc]
    exact acquireLoop_ip_port today_str attempts st (by simp [hc])
  · rw [if_neg hc]
    exact h

/-- C5 (amended): `switch_ip` clears `current_ip` and `current_port`
together, endpoint adoption and expiry set or clear both together, and
`get_valid_ip` preserves the one-sided invariant that `current_port` is
set whenever `current_ip` is set; the converse fails: the
revalidation-failure path clears only `current_ip`, so a state with
`current_ip = None` and `current_port` still holding the old port is
reachable (see the counterexample). -/
theorem endpoint_fields_one_sided_invariant (cfg : Config) (now : ℤ)
    (today_str : String) (validateCurrent : Bool) (revalTime : ℤ)
    (attempts : List Attempt) (st : PoolSt)
    (h : st.current_ip.isSome → st.current_port.isSome) :
    ((get_valid_ip cfg now today_str validateCurrent revalTime attempts
        st).2.current_ip.isSome →
     (get_valid_ip cfg now today_str validateCurrent revalTime attempts
        st).2.current_port.isSome) ∧
    (switch_ip_reset st).current_ip = none ∧
    (switch_ip_reset st).current_port = none := by
  refine ⟨?_, rfl, rfl⟩
  obtain ⟨cip, cport, clvt, cacq, cstats⟩ := st
  cases cip with
  | none => exact gviPhase2_ip_port today_str attempts _ (by simp)
  | some ip =>
      cases cport with
      | none => simp at h
      | some port =>
          cases clvt with
          | none => exact gviPhase2_ip_port today_str attempts _ (by simp)
          | some lvt =>
              show ((match gviCurrent cfg now validateCurrent revalTime
                        ⟨some ip, some port, some lvt, cacq, cstats⟩
                        ip port lvt with
                      | .inl r => r
                      | .inr st' =>
                          gviPhase2 today_str attempts
                            st').2.current_ip.isSome = true) →
                   ((match gviCurrent cfg now validateCurrent revalTime
                        ⟨some ip, some port, some lvt, cacq, cstats⟩
                        ip port lvt with
                      | .inl r => r
                      | .inr st' =>
                          gviPhase2 today_str attempts
                            st').2.current_port.isSome = true)
              unfold gviCurrent
              by_cases h1 : 0 < cfg.ip_expiration_time ∧
                  cfg.ip_expiration_time < now - lvt
              · rw [if_pos h1]
                exact gviPhase2_ip_port today_str attempts _ (by simp)
              · rw [if_neg h1]
                by_cases h2 : now - lvt < cfg.validation_interval
                · rw [if_pos h2]
                  exact fun _ => rfl
                · rw [if_neg h2]
                  by_cases h3 : validateCurrent = true
                  · rw [if_pos h3]
                    exact fun _ => rfl
                  · rw [if_neg h3]
                    exact gviPhase2_ip_port today_str attempts _ (by simp)

/-- Witness for `endpoint_fields_one_sided_invariant` at the initial pool
state. -/
theorem endpoint_fields_one_sided_invariant_witness :
    (((get_valid_ip cfgTtl 0 "2026-10-12" false 0 [] poolInit).2.current_ip.isSome →
      (get_valid_ip cfgTtl 0 "2026-10-12" false 0 [] poolInit).2.current_port.isSome) ∧
     (switch_ip_reset poolInit).current_ip = none ∧
     (switch_ip_reset poolInit).current_port = none) :=
  endpoint_fields_one_sided_invariant cfgTtl 0 "2026-10-12" false 0 []
    poolInit (by decide)

/-! Section: the connection relay (`handle_connection`, `_forward_and_track`,
lines 167-290)

Socket traffic is modelled as lists of chunk sizes; the observable
actions of each path (synthetic responses, socket closes, cancellation
of the listening-service task) are recorded in result structures. -/

/-- Result of one relay-loop task `_forward_and_track`: the final stats,
the sizes of the chunks actually written to the destination, whether the
destination was closed (the `finally` block, lines 193-195), and whether
the listening-service task was cancelled. -/
structure FwdResult where
  stats : Stats
  forwarded : List ℕ
  dstClosed : Bool
  serverCancelRequested : Bool
  deriving Repr, DecidableEq

/-- The `while not src.at_eof()` loop of `_forward_and_track` (lines
172-190): read a chunk (`0` models an empty read, `if not data: break`),
account it under the stats lock, `break` without forwarding when the
accounting trips the quota, otherwise write it to the destination and
continue. -/
def forwardLoop (chunks : List ℕ) (s : Stats) : Stats × List ℕ :=
  match chunks with
  | [] => (s, [])
  | c :: rest =>
      if c = 0 then (s, [])
      else
        let p := addTrafficChunk c s
        if p.2 then (p.1, [])
        else
          let q := forwardLoop rest p.1
          (q.1, c :: q.2)

/-- Model of `_forward_and_track` (lines 167-195): run the loop, then always close
the destination; the quota-trip path only breaks out of the loop — it
never cancels the server task ("[修改 2] 仅保留 break", line 186). -/
def _forward_and_track (chunks : List ℕ) (s : Stats) : FwdResult :=
  let q := forwardLoop chunks s
  { stats := q.1
    forwarded := q.2
    dstClosed := true
    serverCancelRequested := false }

/-- Result of the initial-chunk accounting block of `handle_connection`
(lines 248-269). -/
structure InitialChunkResult where
  stats : Stats
  responded503 : Bool
  remoteClosed : Bool
  clientClosed : Bool
  serverCancelRequested : Bool
  forwardedInitial : Bool
  deriving Repr, DecidableEq

/-- The initial-chunk block of `handle_connection` (lines 248-269),
reached after the upstream dial succeeded: account the initial bytes;
if that trips the quota, respond 503, close the remote and client
writers, cancel `self.server_task` (lines 262-265) and return; otherwise
forward the initial bytes upstream and start the two relay loops. -/
def handleInitialChunk (n : ℕ) (s : Stats) : InitialChunkResult :=
  let p := addTrafficChunk n s
  if p.2 then
    { stats := p.1
      responded503 := true
      remoteClosed := true
      clientClosed := true
      serverCancelRequested := true
      forwardedInitial := false }
  else
    { stats := p.1
      responded503 := false
      remoteClosed := false
      clientClosed := false
      serverCancelRequested := false
      forwardedInitial := true }

/-- C3: the two quota-breach paths differ in severity.  When accounting
the initial bytes trips the quota, the handler responds 503, closes both
sockets and cancels the whole listening-service task; when a mid-stream
chunk trips the quota inside a relay loop, the loop stops forwarding
(nothing is written from the tripping chunk on) and closes its
destination, but never requests cancellation of the service. -/
theorem quota_breach_severity_initial_vs_midstream (n : ℕ) (s : Stats)
    (chunks : List ℕ) (c : ℕ) (cs : List ℕ) :
    ((addTrafficChunk n s).2 = true →
      handleInitialChunk n s
        = { stats := (addTrafficChunk n s).1
            responded503 := true
            remoteClosed := true
            clientClosed := true
            serverCancelRequested := true
            forwardedInitial := false }) ∧
    (_forward_and_track chunks s).serverCancelRequested = false ∧
    (_forward_and_track chunks s).dstClosed = true ∧
    (c ≠ 0 → (addTrafficChunk c s).2 = true →
      (_forward_and_track (c :: cs) s).forwarded = []) := by
  refine ⟨?_, rfl, rfl, ?_⟩
  · intro ht
    unfold handleInitialChunk
    rw [if_pos ht]
  · intro hc ht
    unfold _forward_and_track forwardLoop
    rw [if_neg hc, if_pos ht]

/-- Witness for `quota_breach_severity_initial_vs_midstream`: with a
10-byte quota already configured and an empty ledger, a 10-byte initial
chunk trips the quota. -/
theorem quota_breach_severity_initial_vs_midstream_witness :
    handleInitialChunk 10 { statsDefault with total_traffic_limit_bytes := 10 }
      = { stats := (addTrafficChunk 10
            { statsDefault with total_traffic_limit_bytes := 10 }).1
          responded503 := true
          remoteClosed := true
          clientClosed := true
          serverCancelRequested := true
          forwardedInitial := false } ∧
    (_forward_and_track [10, 4]
      { statsDefault with total_traffic_limit_bytes := 10 }).forwarded = [] := by
  have h := quota_breach_severity_initial_vs_midstream 10
    { statsDefault with total_traffic_limit_bytes := 10 } [10, 4] 10 [4]
  exact ⟨h.1 (by decide), h.2.2.2 (by decide) (by decide)⟩

/-- The observable outcome of the whitelist section of
`handle_connection` (lines 217-234): the synthetic response written back
(if any), whether execution goes on to call `self.get_valid_ip()` (line
234), and whether a request outcome was recorded in the ledger by this
section. -/
structure WhitelistStep where
  response : Option String
  poolCalled : Bool
  outcomeRecorded : Bool
  deriving Repr, DecidableEq

/-- The 403 response bytes written on both rejection paths (lines 222,
229). -/
def resp403 : String := "HTTP/1.1 403 Forbidden\r\nConnection: close\r\n\r\n"

/-- The whitelist section of `handle_connection` (lines 217-234):
`allowed` is `set(self.config.get("allowed_domains", []))` and
`hostname` the result of `self._extract_hostname(initial_data)`.  An
empty whitelist, an unextractable hostname, or a hostname not in the set
each yield a 403 and return before any pool or ledger access; otherwise
the request proceeds to `get_valid_ip`. -/
def whitelistGate (allowed : List String) (hostname : Option String) :
    WhitelistStep :=
  if allowed.isEmpty then
    { response := some resp403, poolCalled := false, outcomeRecorded := false }
  else
    match hostname with
    | none =>
        { response := some resp403, poolCalled := false,
          outcomeRecorded := false }
    | some h =>
        if h ∈ allowed then
          { response := none, poolCalled := true, outcomeRecorded := false }
        else
          { response := some resp403, poolCalled := false,
            outcomeRecorded := false }

/-- C8: if the allowed-domain set is empty, or the hostname extracted
from the initial bytes is absent or not a member, the handler responds
403 (`Connection: close`) and closes without calling the pool and
without recording a request outcome; if the hostname is a member, the
request proceeds to the pool. -/
theorem whitelist_gate_403_or_pool (allowed : List String)
    (hostname : Option String) :
    (allowed = [] ∨ hostname = none ∨
        (∃ h, hostname = some h ∧ h ∉ allowed) →
      whitelistGate allowed hostname
        = { response := some resp403, poolCalled := false,
            outcomeRecorded := false }) ∧
    (∀ h, hostname = some h → h ∈ allowed →
      whitelistGate allowed hostname
        = { response := none, poolCalled := true,
            outcomeRecorded := false }) := by
  constructor
  · rintro (he | hn | ⟨h, hh, hm⟩)
    · simp [whitelistGate, he]
    · subst hn
      unfold whitelistGate
      split
      · rfl
      · rfl
    · subst hh
      unfold whitelistGate
      split
      · rfl
      · simp [hm]
  · intro h hh hm
    subst hh
    have hne : ¬allowed.isEmpty := by
      cases allowed with
      | nil => simp at hm
      | cons a as => simp [List.isEmpty]
    simp [whitelistGate, hne, hm]

/-- Witness for `whitelist_gate_403_or_pool` with
`allowed = ["example.com"]`: `Host: example.com` proceeds to the pool
while `Host: other.com` is rejected with 403. -/
theorem whitelist_gate_403_or_pool_witness :
    whitelistGate ["example.com"] (some "example.com")
      = { response := none, poolCalled := true, outcomeRecorded := false } ∧
    whitelistGate ["example.com"] (some "other.com")
      = { response := some resp403, poolCalled := false,
          outcomeRecorded := false } := by
  constructor
  · exact (whitelist_gate_403_or_pool ["example.com"]
      (some "example.com")).2 "example.com" rfl (by decide)
  · exact (whitelist_gate_403_or_pool ["example.com"]
      (some "other.com")).1 (Or.inr (Or.inr ⟨"other.com", rfl, by decide⟩))
